import Mathlib

/-!
Verification of the CORS decision engine of `quart_cors` (file
`src/quart_cors/__init__.py`), as a shallow embedding.  The definitions
below are translated from that source file: `HeaderSet` models
`werkzeug.datastructures.HeaderSet` (the narrow interface used by the
engine: case-insensitive membership, lower-cased `as_set`, idempotent
`add`), `apply_cors` models `_apply_cors`, `get_origin_if_valid` models
`_get_origin_if_valid`, `resolvePolicy` models the resolution block at
the top of `_after_request` (and of the `route_cors` wrapper), and
`route_cors_call` models one invocation of the `route_cors` wrapper
including its `nonlocal` write-back of resolved values.  Python sets of
origin patterns are modelled as lists whose order stands for the set's
iteration order.
-/

set_option maxHeartbeats 1000000

/-- ASCII lower-casing of one character: models Python's `str.lower` on the
character range relevant to HTTP tokens and origins. -/
def pyLowerChar (c : Char) : Char :=
  if 65 ≤ c.toNat ∧ c.toNat ≤ 90 then Char.ofNat (c.toNat + 32) else c

/-- Models Python's `str.lower` (ASCII range). -/
def pyLower (s : String) : String :=
  ⟨s.data.map pyLowerChar⟩

/-- Model of `werkzeug.datastructures.HeaderSet`: the underlying `_headers`
list of tokens in insertion order. -/
structure HeaderSet where
  headers : List String
deriving DecidableEq, Repr

/-- `HeaderSet.__contains__`: membership after lower-casing both sides
(werkzeug keeps `_set = {x.lower() for x in _headers}` and tests
`header.lower() in _set`). -/
def HeaderSet.containsTok (hs : HeaderSet) (h : String) : Bool :=
  hs.headers.any (fun x => pyLower x == pyLower h)

/-- `HeaderSet.as_set()`: the set of lower-cased tokens, modelled as the
deduplicated list of lower-cased tokens. -/
def HeaderSet.as_set (hs : HeaderSet) : List String :=
  (hs.headers.map pyLower).dedup

/-- `HeaderSet.add`: append the token unless already present
(case-insensitively); werkzeug's `update` only appends unseen keys. -/
def HeaderSet.addTok (hs : HeaderSet) (h : String) : HeaderSet :=
  if hs.containsTok h then hs else ⟨hs.headers ++ [h]⟩

/-- `OriginType = Union[Pattern, str]`: an allowed-origin specifier is an
exact string or a compiled regex, the latter modelled by its match
predicate (`allowed.match(origin)` truthiness). -/
inductive OriginType where
  | str : String → OriginType
  | pattern : (String → Bool) → OriginType

/-- Models the Python membership test `"*" in allow_origin` on the set of
allowed origins: equality against the string `"*"` (a compiled regex is
never equal to a string). -/
def hasWildcard (allow_origin : List OriginType) : Bool :=
  allow_origin.any (fun a =>
    match a with
    | .str s => s == "*"
    | .pattern _ => false)

/-- The loop of `_get_origin_if_valid` over the allowed-origin set
(iteration order given by the list). -/
def matchAllowed (origin : String) (send_wildcard : Bool) : List OriginType → Option String
  | [] => none
  | allowed :: rest =>
    match allowed with
    | .str s =>
      if s == "*" then (if send_wildcard then some "*" else some origin)
      else if origin == s then some origin
      else matchAllowed origin send_wildcard rest
    | .pattern p =>
      if p origin then some origin else matchAllowed origin send_wildcard rest

/-- Model of `_get_origin_if_valid`. -/
def get_origin_if_valid (origin : Option String) (allow_origin : List OriginType)
    (send_wildcard : Bool) : Option String :=
  match origin with
  | none => none
  | some o => if o == "" then none else matchAllowed o send_wildcard allow_origin

/-- The response object, restricted to the fields `_apply_cors` reads or
writes: each `access_control_*` property as an optional assigned value,
the `Vary` header as a `HeaderSet`, and the `_QUART_CORS_APPLIED`
marker attribute (absent = `false`). -/
structure Response where
  access_control_allow_origin : Option String := none
  access_control_allow_credentials : Option Bool := none
  access_control_expose_headers : Option HeaderSet := none
  access_control_allow_headers : Option HeaderSet := none
  access_control_allow_methods : Option HeaderSet := none
  access_control_max_age : Option Int := none
  vary : HeaderSet := ⟨[]⟩
  quart_cors_applied : Bool := false
deriving DecidableEq, Repr

/-- Python truthiness of an `Optional[str]` (`None` and `""` are falsy). -/
def pyTruthyStr : Option String → Bool
  | none => false
  | some s => !(s == "")

/-- Models Python's substring test `"*" in origin` on a string: the needle
is the single character `*`, so the test is membership of `*` among the
string's characters. -/
def containsStar (s : String) : Bool := s.data.any (fun c => c == '*')

/-- `HeaderSet(allow_headers.as_set().intersection(request_headers.as_set()))`:
the intersection of the two lower-cased token sets, as a `HeaderSet`. -/
def headerSetIntersect (a b : HeaderSet) : HeaderSet :=
  ⟨(a.as_set).filter (fun x => (b.as_set).contains x)⟩

/-- The `if origin is not None` block of `_apply_cors` (lines 368-387):
set the allow-origin / allow-credentials / expose-headers properties
and, on a qualifying preflight, the allow-headers / allow-methods /
max-age properties. -/
def corsOriginBlock (request_headers : Option HeaderSet) (request_method : Option String)
    (method : String) (response : Response) (allow_credentials : Bool)
    (allow_headers allow_methods : HeaderSet) (expose_headers : HeaderSet)
    (max_age : Option Int) (o : String) : Response :=
  let r0 := { response with
    access_control_allow_origin := some o,
    access_control_allow_credentials := some allow_credentials,
    access_control_expose_headers := some expose_headers }
  if method == "OPTIONS" && pyTruthyStr request_method &&
      (allow_methods.containsTok (request_method.getD "")
        || allow_methods.containsTok "*") then
    let rh := request_headers.getD ⟨[]⟩
    let r1 :=
      if allow_headers.containsTok "*" then
        { r0 with access_control_allow_headers := some rh }
      else
        { r0 with access_control_allow_headers := some (headerSetIntersect allow_headers rh) }
    let r2 := { r1 with access_control_allow_methods := some allow_methods }
    match max_age with
    | some m => { r2 with access_control_max_age := some m }
    | none => r2
  else r0

/-- The `Vary` block of `_apply_cors` (lines 388-389): add `Origin` when
the matched origin is `None` or does not contain `"*"` as a substring. -/
def corsVaryBlock (origin : Option String) (r : Response) : Response :=
  if origin.isNone || !(containsStar (origin.getD "")) then
    { r with vary := r.vary.addTok "Origin" }
  else r

/-- Model of `_apply_cors`.  A raised `ValueError` is `Except.error` with
the source's message; otherwise the (possibly updated) response is
returned in `Except.ok`. -/
def apply_cors (request_origin : Option String) (request_headers : Option HeaderSet)
    (request_method : Option String) (method : String) (response : Response)
    (allow_credentials : Bool) (allow_headers : HeaderSet) (allow_methods : HeaderSet)
    (allow_origin : List OriginType) (expose_headers : HeaderSet)
    (max_age : Option Int) (send_origin_wildcard : Bool) : Except String Response :=
  if hasWildcard allow_origin && allow_credentials then
    .error "Cannot allow credentials with wildcard allowed origins"
  else if response.quart_cors_applied then
    .ok response
  else
    let origin := get_origin_if_valid request_origin allow_origin send_origin_wildcard
    let response1 :=
      match origin with
      | some o =>
        corsOriginBlock request_headers request_method method response allow_credentials
          allow_headers allow_methods expose_headers max_age o
      | none => response
    .ok { corsVaryBlock origin response1 with quart_cors_applied := true }

/-- The application instance's configuration store, restricted to the seven
`QUART_CORS_*` keys (`none` = key absent). -/
structure Config where
  quart_cors_allow_credentials : Option Bool := none
  quart_cors_allow_headers : Option (List String) := none
  quart_cors_allow_methods : Option (List String) := none
  quart_cors_allow_origin : Option (List OriginType) := none
  quart_cors_expose_headers : Option (List String) := none
  quart_cors_max_age : Option (Option Int) := none
  quart_cors_send_origin_wildcard : Option Bool := none

/-- `_get_config_or_default("QUART_CORS_ALLOW_CREDENTIALS")`. -/
def cfgAllowCredentials (c : Config) : Bool :=
  c.quart_cors_allow_credentials.getD false

/-- `_get_config_or_default("QUART_CORS_ALLOW_HEADERS")`. -/
def cfgAllowHeaders (c : Config) : List String :=
  c.quart_cors_allow_headers.getD ["*"]

/-- `_get_config_or_default("QUART_CORS_ALLOW_METHODS")`. -/
def cfgAllowMethods (c : Config) : List String :=
  c.quart_cors_allow_methods.getD ["GET", "HEAD", "POST", "OPTIONS", "PUT", "PATCH", "DELETE"]

/-- `_get_config_or_default("QUART_CORS_ALLOW_ORIGIN")`. -/
def cfgAllowOrigin (c : Config) : List OriginType :=
  c.quart_cors_allow_origin.getD [.str "*"]

/-- `_get_config_or_default("QUART_CORS_EXPOSE_HEADERS")`. -/
def cfgExposeHeaders (c : Config) : List String :=
  c.quart_cors_expose_headers.getD [""]

/-- `_get_config_or_default("QUART_CORS_MAX_AGE")`. -/
def cfgMaxAge (c : Config) : Option Int :=
  c.quart_cors_max_age.getD none

/-- `_get_config_or_default("QUART_CORS_SEND_ORIGIN_WILDCARD")`. -/
def cfgSendOriginWildcard (c : Config) : Bool :=
  c.quart_cors_send_origin_wildcard.getD true

/-- Python's `value or cfg` on an `Optional[bool]` resolved value: only a
supplied `True` short-circuits; `None` and `False` both fall through to
the configured/default value. -/
def pyOrBool (value : Option Bool) (cfg : Bool) : Bool :=
  match value with
  | some true => true
  | _ => cfg

/-- `_sanitise_header_set`: `None` falls back to the configured/default
list, anything else is wrapped in a `HeaderSet` (a single string would
first be wrapped in a one-element list; explicit values are modelled as
lists). -/
def sanitise_header_set (value : Option (List String)) (cfg : List String) : HeaderSet :=
  ⟨value.getD cfg⟩

/-- `_sanitise_origin_set`: `None` falls back to the configured/default
value; the result's `set(...)` conversion is modelled by the list itself
(list order stands for set iteration order). -/
def sanitise_origin_set (value : Option (List OriginType)) (cfg : List OriginType) :
    List OriginType :=
  value.getD cfg

/-- `_sanitise_max_age`: `None` falls back to the configured/default value;
an explicit duration is modelled as its already-converted whole seconds. -/
def sanitise_max_age (value : Option Int) (cfg : Option Int) : Option Int :=
  match value with
  | none => cfg
  | some v => some v

/-- The seven optional policy arguments of `route_cors` / `cors` /
`_after_request` (and, after the first `route_cors` call, the resolved
values written back by its `nonlocal` statements). -/
structure ExplicitPolicy where
  allow_credentials : Option Bool := none
  allow_headers : Option (List String) := none
  allow_methods : Option (List String) := none
  allow_origin : Option (List OriginType) := none
  expose_headers : Option (List String) := none
  max_age : Option Int := none
  send_origin_wildcard : Option Bool := none

/-- A fully resolved policy, as passed to `_apply_cors`. -/
structure EffectivePolicy where
  allow_credentials : Bool
  allow_headers : HeaderSet
  allow_methods : HeaderSet
  allow_origin : List OriginType
  expose_headers : HeaderSet
  max_age : Option Int
  send_origin_wildcard : Bool

/-- The policy-resolution block shared by `_after_request` (lines 313-321)
and the `route_cors` wrapper: each field is the explicit value if
usable, else the instance configuration value, else the default
(booleans go through Python's `or`, the rest through the `_sanitise_*`
helpers' `is None` test). -/
def resolvePolicy (e : ExplicitPolicy) (c : Config) : EffectivePolicy :=
  { allow_credentials := pyOrBool e.allow_credentials (cfgAllowCredentials c)
    allow_headers := sanitise_header_set e.allow_headers (cfgAllowHeaders c)
    allow_methods := sanitise_header_set e.allow_methods (cfgAllowMethods c)
    allow_origin := sanitise_origin_set e.allow_origin (cfgAllowOrigin c)
    expose_headers := sanitise_header_set e.expose_headers (cfgExposeHeaders c)
    max_age := sanitise_max_age e.max_age (cfgMaxAge c)
    send_origin_wildcard := pyOrBool e.send_origin_wildcard (cfgSendOriginWildcard c) }

/-- The request metadata read by the `route_cors` wrapper and
`_after_request`. -/
structure RequestData where
  origin : Option String := none
  access_control_request_headers : Option HeaderSet := none
  access_control_request_method : Option String := none
  method : String := "GET"

/-- `_apply_cors` applied to a resolved policy. -/
def applyCorsPolicy (rd : RequestData) (resp : Response) (p : EffectivePolicy) :
    Except String Response :=
  apply_cors rd.origin rd.access_control_request_headers rd.access_control_request_method
    rd.method resp p.allow_credentials p.allow_headers p.allow_methods p.allow_origin
    p.expose_headers p.max_age p.send_origin_wildcard

/-- The `nonlocal` write-back performed by the `route_cors` wrapper: the
resolved values replace the closure's seven variables (`HeaderSet` and
set values re-sanitise to themselves on later calls; a resolved
`max_age` of `None` stays `None` and is re-read next call). -/
def writeBackState (p : EffectivePolicy) : ExplicitPolicy :=
  { allow_credentials := some p.allow_credentials
    allow_headers := some p.allow_headers.headers
    allow_methods := some p.allow_methods.headers
    allow_origin := some p.allow_origin
    expose_headers := some p.expose_headers.headers
    max_age := p.max_age
    send_origin_wildcard := some p.send_origin_wildcard }

/-- One invocation of the `route_cors` wrapper on a produced response:
resolve the policy from the closure state and the current
configuration, write the resolved values back into the closure
(`nonlocal`), and run `_apply_cors`.  Returns the new closure state and
the wrapper's result. -/
def route_cors_call (st : ExplicitPolicy) (c : Config) (rd : RequestData) (resp : Response) :
    ExplicitPolicy × Except String Response :=
  let p := resolvePolicy st c
  (writeBackState p, applyCorsPolicy rd resp p)

/-- Model of `_apply_websocket_cors`: resolve the origin policy, match the
handshake's origin, `abort(400)` (here `Except.error 400`) when no
origin is valid. -/
def apply_websocket_cors (ws_origin : Option String)
    (allow_origin : Option (List OriginType)) (send_origin_wildcard : Option Bool)
    (c : Config) : Except Nat Unit :=
  let ao := sanitise_origin_set allow_origin (cfgAllowOrigin c)
  let sw := pyOrBool send_origin_wildcard (cfgSendOriginWildcard c)
  match get_origin_if_valid ws_origin ao sw with
  | none => .error 400
  | some _ => .ok ()

/-- Model of `_before_websocket`: skip the guard entirely when the handler
carries the `_quart_cors_exempt` attribute, otherwise run
`_apply_websocket_cors`. -/
def before_websocket (exempt : Bool) (ws_origin : Option String)
    (allow_origin : Option (List OriginType)) (send_origin_wildcard : Option Bool)
    (c : Config) : Except Nat Unit :=
  if !exempt then apply_websocket_cors ws_origin allow_origin send_origin_wildcard c
  else .ok ()

/-! ## Claim theorems -/

/-- A wildcard+credentials policy makes the fatal-check condition true. -/
theorem wildcard_cred_cond {ao : List OriginType} {ac : Bool}
    (hvalid : ¬(hasWildcard ao = true ∧ ac = true)) :
    (hasWildcard ao && ac) = false := by
  cases h1 : hasWildcard ao <;> cases h2 : ac <;> simp_all

/-- C1: whenever the effective allowed-origin set contains the wildcard
pattern and credentials are allowed, `_apply_cors` raises the
configuration-conflict `ValueError` on every call — for every response
(marked or not, so the check is not cached) and every request origin
(present or absent) — and, the result being an error, no access-control
or `Vary` header is written to any response. -/
theorem C1_wildcard_credentials_error (request_origin : Option String)
    (request_headers : Option HeaderSet) (request_method : Option String) (method : String)
    (response : Response) (allow_credentials : Bool) (allow_headers allow_methods : HeaderSet)
    (allow_origin : List OriginType) (expose_headers : HeaderSet) (max_age : Option Int)
    (send_origin_wildcard : Bool)
    (hw : hasWildcard allow_origin = true) (hc : allow_credentials = true) :
    apply_cors request_origin request_headers request_method method response
      allow_credentials allow_headers allow_methods allow_origin expose_headers
      max_age send_origin_wildcard =
      .error "Cannot allow credentials with wildcard allowed origins" := by
  unfold apply_cors
  simp [hw, hc]

/-- Witness for C1: the default wildcard policy with credentials enabled
errors on a concrete request with no `Origin` header and a marked
response. -/
theorem C1_wildcard_credentials_error_witness :
    apply_cors none none none "GET" { quart_cors_applied := true } true ⟨["*"]⟩
      ⟨["GET"]⟩ [.str "*"] ⟨[""]⟩ none true =
      .error "Cannot allow credentials with wildcard allowed origins" :=
  C1_wildcard_credentials_error none none none "GET" { quart_cors_applied := true } true
    ⟨["*"]⟩ ⟨["GET"]⟩ [.str "*"] ⟨[""]⟩ none true (by decide) rfl

/-- C3 counterexample: a response already carrying the marker, under the
invalid wildcard+credentials policy, is NOT returned unchanged — the
conflict check precedes the marker check, so the call errors, against
the claim's "no error is raised". -/
theorem C3_counterexample :
    apply_cors (some "https://a.com") none none "GET" { quart_cors_applied := true }
      true ⟨["*"]⟩ ⟨["GET"]⟩ [.str "*"] ⟨[""]⟩ none true =
      .error "Cannot allow credentials with wildcard allowed origins" := by
  rfl

/-- C3 amended: for a VALID policy (no wildcard+credentials conflict), a
response already carrying the marker is returned unchanged: no header
is modified and no error is raised.  (With the invalid policy the
conflict error fires even on a marked response.) -/
theorem C3_marker_noop (request_origin : Option String)
    (request_headers : Option HeaderSet) (request_method : Option String) (method : String)
    (response : Response) (allow_credentials : Bool) (allow_headers allow_methods : HeaderSet)
    (allow_origin : List OriginType) (expose_headers : HeaderSet) (max_age : Option Int)
    (send_origin_wildcard : Bool)
    (hvalid : ¬(hasWildcard allow_origin = true ∧ allow_credentials = true))
    (happlied : response.quart_cors_applied = true) :
    apply_cors request_origin request_headers request_method method response
      allow_credentials allow_headers allow_methods allow_origin expose_headers
      max_age send_origin_wildcard = .ok response := by
  unfold apply_cors
  simp [wildcard_cred_cond hvalid, happlied]

/-- Witness for C3's amended theorem: a marked response under a valid
non-wildcard policy is returned untouched. -/
theorem C3_marker_noop_witness :
    apply_cors (some "https://a.com") none none "GET" { quart_cors_applied := true }
      true ⟨["*"]⟩ ⟨["GET"]⟩ [.str "https://b.com"] ⟨[""]⟩ none true =
      .ok { quart_cors_applied := true } :=
  C3_marker_noop (some "https://a.com") none none "GET" { quart_cors_applied := true }
    true ⟨["*"]⟩ ⟨["GET"]⟩ [.str "https://b.com"] ⟨[""]⟩ none true (by decide) rfl

/-- C4: with a valid policy, applying `_apply_cors` a second time, with the
same inputs, to the response produced by a first application on a fresh
response returns that response unchanged — headers (access-control and
`Vary`) are identical to a single application. -/
theorem C4_idempotent (request_origin : Option String)
    (request_headers : Option HeaderSet) (request_method : Option String) (method : String)
    (response : Response) (allow_credentials : Bool) (allow_headers allow_methods : HeaderSet)
    (allow_origin : List OriginType) (expose_headers : HeaderSet) (max_age : Option Int)
    (send_origin_wildcard : Bool) (r1 : Response)
    (hvalid : ¬(hasWildcard allow_origin = true ∧ allow_credentials = true))
    (hfresh : response.quart_cors_applied = false)
    (h1 : apply_cors request_origin request_headers request_method method response
      allow_credentials allow_headers allow_methods allow_origin expose_headers
      max_age send_origin_wildcard = .ok r1) :
    apply_cors request_origin request_headers request_method method r1
      allow_credentials allow_headers allow_methods allow_origin expose_headers
      max_age send_origin_wildcard = .ok r1 := by
  have hcond := wildcard_cred_cond hvalid
  unfold apply_cors at h1 ⊢
  simp [hcond, hfresh] at h1
  simp [hcond, ← h1]

/-- Witness for C4: a concrete first application on a fresh response, and
the second application on its result returning it unchanged. -/
theorem C4_idempotent_witness :
    apply_cors (some "https://quart.com") none none "GET"
      { access_control_allow_origin := some "https://quart.com",
        access_control_allow_credentials := some false,
        access_control_expose_headers := some ⟨[""]⟩,
        vary := ⟨["Origin"]⟩, quart_cors_applied := true }
      false ⟨["*"]⟩ ⟨["GET"]⟩ [.str "https://quart.com"] ⟨[""]⟩ none true =
      .ok { access_control_allow_origin := some "https://quart.com",
            access_control_allow_credentials := some false,
            access_control_expose_headers := some ⟨[""]⟩,
            vary := ⟨["Origin"]⟩, quart_cors_applied := true } :=
  C4_idempotent (some "https://quart.com") none none "GET" {} false ⟨["*"]⟩ ⟨["GET"]⟩
    [.str "https://quart.com"] ⟨[""]⟩ none true
    { access_control_allow_origin := some "https://quart.com",
      access_control_allow_credentials := some false,
      access_control_expose_headers := some ⟨[""]⟩,
      vary := ⟨["Origin"]⟩, quart_cors_applied := true }
    (by decide) rfl rfl

/-- `Char.ofNat` at a valid code point evaluates back to that code point. -/
theorem toNat_ofNat_valid (n : Nat) (h : n.isValidChar) : (Char.ofNat n).toNat = n := by
  simp [Char.ofNat, h, Char.ofNatAux, Char.toNat, UInt32.toNat, BitVec.toNat_ofNatLt]

/-- ASCII lower-casing of a character is idempotent. -/
theorem pyLowerChar_idem (c : Char) : pyLowerChar (pyLowerChar c) = pyLowerChar c := by
  unfold pyLowerChar
  split
  · rename_i h
    have hv : (c.toNat + 32).isValidChar := by
      unfold Nat.isValidChar
      omega
    rw [if_neg]
    rw [toNat_ofNat_valid _ hv]
    omega
  · rfl

/-- `pyLower` is idempotent. -/
theorem pyLower_idem (s : String) : pyLower (pyLower s) = pyLower s := by
  unfold pyLower
  simp [pyLowerChar_idem, List.map_map, Function.comp_def]

/-- After `add`, the added token is a member of the `HeaderSet`. -/
theorem containsTok_addTok_self (hs : HeaderSet) (h : String) :
    (hs.addTok h).containsTok h = true := by
  unfold HeaderSet.addTok
  split
  · assumption
  · unfold HeaderSet.containsTok
    simp

/-- The origin block leaves the `Vary` header untouched. -/
theorem corsOriginBlock_vary (request_headers : Option HeaderSet)
    (request_method : Option String) (method : String) (response : Response)
    (allow_credentials : Bool) (allow_headers allow_methods expose_headers : HeaderSet)
    (max_age : Option Int) (o : String) :
    (corsOriginBlock request_headers request_method method response allow_credentials
      allow_headers allow_methods expose_headers max_age o).vary = response.vary := by
  unfold corsOriginBlock
  dsimp only
  split
  · split <;> split <;> rfl
  · rfl

/-- The origin block always records the matched origin, the credentials
flag and the expose-headers set. -/
theorem corsOriginBlock_base_headers (request_headers : Option HeaderSet)
    (request_method : Option String) (method : String) (response : Response)
    (allow_credentials : Bool) (allow_headers allow_methods expose_headers : HeaderSet)
    (max_age : Option Int) (o : String) :
    (corsOriginBlock request_headers request_method method response allow_credentials
      allow_headers allow_methods expose_headers max_age o).access_control_allow_origin =
        some o ∧
    (corsOriginBlock request_headers request_method method response allow_credentials
      allow_headers allow_methods expose_headers max_age o).access_control_allow_credentials =
        some allow_credentials ∧
    (corsOriginBlock request_headers request_method method response allow_credentials
      allow_headers allow_methods expose_headers max_age o).access_control_expose_headers =
        some expose_headers := by
  unfold corsOriginBlock
  dsimp only
  split
  · split <;> split <;> exact ⟨rfl, rfl, rfl⟩
  · exact ⟨rfl, rfl, rfl⟩

/-- When the preflight qualification test fails, the origin block only sets
the three base headers and leaves everything else as-is. -/
theorem corsOriginBlock_not_preflight (request_headers : Option HeaderSet)
    (request_method : Option String) (method : String) (response : Response)
    (allow_credentials : Bool) (allow_headers allow_methods expose_headers : HeaderSet)
    (max_age : Option Int) (o : String)
    (h : (method == "OPTIONS" && pyTruthyStr request_method &&
      (allow_methods.containsTok (request_method.getD "")
        || allow_methods.containsTok "*")) = false) :
    corsOriginBlock request_headers request_method method response allow_credentials
      allow_headers allow_methods expose_headers max_age o =
      { response with
        access_control_allow_origin := some o,
        access_control_allow_credentials := some allow_credentials,
        access_control_expose_headers := some expose_headers } := by
  unfold corsOriginBlock
  simp [h]

/-- On a qualifying preflight with a non-wildcard allow-headers set, the
origin block records the lower-cased set intersection. -/
theorem corsOriginBlock_preflight_intersect (request_headers : Option HeaderSet)
    (request_method : Option String) (method : String) (response : Response)
    (allow_credentials : Bool) (allow_headers allow_methods expose_headers : HeaderSet)
    (max_age : Option Int) (o : String)
    (h : (method == "OPTIONS" && pyTruthyStr request_method &&
      (allow_methods.containsTok (request_method.getD "")
        || allow_methods.containsTok "*")) = true)
    (hnw : allow_headers.containsTok "*" = false) :
    (corsOriginBlock request_headers request_method method response allow_credentials
      allow_headers allow_methods expose_headers max_age o).access_control_allow_headers =
      some (headerSetIntersect allow_headers (request_headers.getD ⟨[]⟩)) := by
  unfold corsOriginBlock
  simp only [h, hnw, if_true, if_false, Bool.false_eq_true, reduceIte]
  cases max_age <;> rfl

/-- The `Vary` block leaves every field except `vary` untouched. -/
theorem corsVaryBlock_fields (origin : Option String) (r : Response) :
    (corsVaryBlock origin r).access_control_allow_origin = r.access_control_allow_origin ∧
    (corsVaryBlock origin r).access_control_allow_credentials =
      r.access_control_allow_credentials ∧
    (corsVaryBlock origin r).access_control_expose_headers =
      r.access_control_expose_headers ∧
    (corsVaryBlock origin r).access_control_allow_headers = r.access_control_allow_headers ∧
    (corsVaryBlock origin r).access_control_allow_methods = r.access_control_allow_methods ∧
    (corsVaryBlock origin r).access_control_max_age = r.access_control_max_age := by
  unfold corsVaryBlock
  split <;> exact ⟨rfl, rfl, rfl, rfl, rfl, rfl⟩

/-- The `Vary` header after the `Vary` block: `Origin` is added exactly
when the matched origin is absent or free of `"*"`. -/
theorem corsVaryBlock_vary (origin : Option String) (r : Response) :
    (corsVaryBlock origin r).vary =
      (if origin.isNone || !(containsStar (origin.getD "")) then r.vary.addTok "Origin"
       else r.vary) := by
  unfold corsVaryBlock
  split <;> simp_all

/-- Membership in the computed header intersection is exactly joint
case-insensitive membership in both operands (hence independent of the
element order of either operand). -/
theorem containsTok_headerSetIntersect (a b : HeaderSet) (h : String) :
    (headerSetIntersect a b).containsTok h = (a.containsTok h && b.containsTok h) := by
  rw [Bool.eq_iff_iff]
  simp only [HeaderSet.containsTok, headerSetIntersect, HeaderSet.as_set,
    List.any_eq_true, List.mem_filter, List.mem_dedup, List.mem_map, List.elem_eq_mem,
    decide_eq_true_eq, beq_iff_eq, Bool.and_eq_true]
  constructor
  · rintro ⟨x, ⟨⟨ya, hya, hyax⟩, ⟨yb, hyb, hybx⟩⟩, hxh⟩
    subst hyax
    rw [pyLower_idem] at hxh
    exact ⟨⟨ya, hya, hxh⟩, ⟨yb, hyb, by rw [hybx, hxh]⟩⟩
  · rintro ⟨⟨ya, hya, hyah⟩, ⟨yb, hyb, hybh⟩⟩
    exact ⟨pyLower h, ⟨⟨ya, hya, hyah⟩, ⟨yb, hyb, hybh⟩⟩, pyLower_idem h⟩

/-- C5 counterexample: a request origin that merely CONTAINS a `*`
character, matched through an exact (non-wildcard) pattern, receives NO
`Vary: Origin` (the code tests `"*" not in origin`, a substring test,
not equality with the literal wildcard string), against the claim that
it "still receives Vary: Origin".  The resulting `Vary` header set is
empty. -/
theorem C5_counterexample :
    apply_cors (some "https://a*b.example") none none "GET" {} false ⟨["*"]⟩ ⟨["GET"]⟩
      [.str "https://a*b.example"] ⟨[""]⟩ none true =
      .ok { access_control_allow_origin := some "https://a*b.example",
            access_control_allow_credentials := some false,
            access_control_expose_headers := some ⟨[""]⟩,
            vary := ⟨[]⟩, quart_cors_applied := true } ∧
    HeaderSet.containsTok ⟨[]⟩ "Origin" = false :=
  ⟨rfl, rfl⟩

/-- C5 (amended): on a fresh response whose `Vary` set lacks `Origin`,
`_apply_cors` under a valid policy ends with `Origin` in `Vary` exactly
when the matched origin is absent or does not contain the character
`"*"` anywhere (a substring test, not equality with `"*"`); in
particular a matched origin that is exactly `"*"`, or that merely
contains `"*"`, receives no `Vary: Origin`. -/
theorem C5_vary_condition (request_origin : Option String)
    (request_headers : Option HeaderSet) (request_method : Option String) (method : String)
    (response : Response) (allow_credentials : Bool) (allow_headers allow_methods : HeaderSet)
    (allow_origin : List OriginType) (expose_headers : HeaderSet) (max_age : Option Int)
    (send_origin_wildcard : Bool) (r1 : Response)
    (hvalid : ¬(hasWildcard allow_origin = true ∧ allow_credentials = true))
    (hfresh : response.quart_cors_applied = false)
    (hvary : response.vary.containsTok "Origin" = false)
    (h1 : apply_cors request_origin request_headers request_method method response
      allow_credentials allow_headers allow_methods allow_origin expose_headers
      max_age send_origin_wildcard = .ok r1) :
    r1.vary.containsTok "Origin" =
      ((get_origin_if_valid request_origin allow_origin send_origin_wildcard).isNone
        || !(containsStar
          ((get_origin_if_valid request_origin allow_origin send_origin_wildcard).getD ""))) := by
  have hcond := wildcard_cred_cond hvalid
  unfold apply_cors at h1
  simp only [hcond, hfresh, Bool.false_eq_true, if_false, reduceIte, Except.ok.injEq] at h1
  cases horg : get_origin_if_valid request_origin allow_origin send_origin_wildcard with
  | none =>
      rw [horg] at h1
      rw [← h1]
      simp [corsVaryBlock_vary, containsTok_addTok_self]
  | some o =>
      rw [horg] at h1
      rw [← h1]
      by_cases hcs : containsStar o = true
      · simp only [corsVaryBlock_vary, Option.isNone_some, Option.getD_some, hcs,
          Bool.not_true, Bool.or_false, Bool.false_eq_true, if_false, reduceIte]
        rw [corsOriginBlock_vary]
        simpa using hvary
      · simp only [Bool.not_eq_true] at hcs
        simp [corsVaryBlock_vary, hcs, containsTok_addTok_self]

/-- Witness for C5's amended theorem: an origin matched as `"*"` (wildcard
policy, send-wildcard on) yields no `Vary: Origin` on a fresh response. -/
theorem C5_vary_condition_witness :
    HeaderSet.containsTok
      { access_control_allow_origin := some "*",
        access_control_allow_credentials := some false,
        access_control_expose_headers := some ⟨[""]⟩,
        vary := ⟨[]⟩, quart_cors_applied := true : Response }.vary "Origin" = false := by
  have h := C5_vary_condition (some "https://quart.com") none none "GET" {} false ⟨["*"]⟩
    ⟨["GET"]⟩ [.str "*"] ⟨[""]⟩ none true
    { access_control_allow_origin := some "*",
      access_control_allow_credentials := some false,
      access_control_expose_headers := some ⟨[""]⟩,
      vary := ⟨[]⟩, quart_cors_applied := true }
    (by decide) rfl rfl rfl
  simpa using h

/-- C6: an `OPTIONS` request whose origin matches and whose preflight
request-method is present and non-empty but neither a case-insensitive
member of the allow-methods set nor covered by a wildcard there is not
rejected: the call succeeds and sets allow-origin, allow-credentials
and expose-headers, but leaves allow-headers, allow-methods and
max-age exactly as they were on the incoming response. -/
theorem C6_preflight_method_not_allowed (request_origin : Option String)
    (request_headers : Option HeaderSet) (request_method : Option String) (method : String)
    (response : Response) (allow_credentials : Bool) (allow_headers allow_methods : HeaderSet)
    (allow_origin : List OriginType) (expose_headers : HeaderSet) (max_age : Option Int)
    (send_origin_wildcard : Bool) (o : String)
    (hvalid : ¬(hasWildcard allow_origin = true ∧ allow_credentials = true))
    (hfresh : response.quart_cors_applied = false)
    (horigin : get_origin_if_valid request_origin allow_origin send_origin_wildcard = some o)
    (hm : method = "OPTIONS")
    (hrm : pyTruthyStr request_method = true)
    (hnm : allow_methods.containsTok (request_method.getD "") = false)
    (hnw : allow_methods.containsTok "*" = false) :
    ∃ r1, apply_cors request_origin request_headers request_method method response
      allow_credentials allow_headers allow_methods allow_origin expose_headers
      max_age send_origin_wildcard = .ok r1 ∧
      r1.access_control_allow_origin = some o ∧
      r1.access_control_allow_credentials = some allow_credentials ∧
      r1.access_control_expose_headers = some expose_headers ∧
      r1.access_control_allow_headers = response.access_control_allow_headers ∧
      r1.access_control_allow_methods = response.access_control_allow_methods ∧
      r1.access_control_max_age = response.access_control_max_age := by
  have hcond := wildcard_cred_cond hvalid
  have hq : (method == "OPTIONS" && pyTruthyStr request_method &&
      (allow_methods.containsTok (request_method.getD "")
        || allow_methods.containsTok "*")) = false := by
    subst hm
    simp [hrm, hnm, hnw]
  unfold apply_cors
  simp only [hcond, hfresh, horigin, Bool.false_eq_true, if_false, reduceIte]
  refine ⟨_, rfl, ?_⟩
  rw [corsOriginBlock_not_preflight _ _ _ _ _ _ _ _ _ _ hq]
  obtain ⟨f1, f2, f3, f4, f5, f6⟩ := corsVaryBlock_fields (some o)
    { response with
      access_control_allow_origin := some o,
      access_control_allow_credentials := some allow_credentials,
      access_control_expose_headers := some expose_headers }
  exact ⟨f1, f2, f3, f4, f5, f6⟩

/-- Witness for C6: preflight `DELETE` against a restricted allow-list
`["GET","POST"]` gets the base headers but no preflight headers. -/
theorem C6_preflight_method_not_allowed_witness :
    ∃ r1, apply_cors (some "https://quart.com") none (some "DELETE") "OPTIONS" {}
      false ⟨["*"]⟩ ⟨["GET", "POST"]⟩ [.str "https://quart.com"] ⟨[""]⟩ none true =
      .ok r1 ∧
      r1.access_control_allow_origin = some "https://quart.com" ∧
      r1.access_control_allow_credentials = some false ∧
      r1.access_control_expose_headers = some ⟨[""]⟩ ∧
      r1.access_control_allow_headers = none ∧
      r1.access_control_allow_methods = none ∧
      r1.access_control_max_age = none :=
  C6_preflight_method_not_allowed (some "https://quart.com") none (some "DELETE") "OPTIONS"
    {} false ⟨["*"]⟩ ⟨["GET", "POST"]⟩ [.str "https://quart.com"] ⟨[""]⟩ none true
    "https://quart.com" (by decide) rfl rfl rfl rfl (by decide) (by decide)

/-- C8: on a qualifying preflight with a non-wildcard allow-headers
configuration, the emitted allow-headers value is the case-insensitive
set intersection of the allow-headers set and the declared request
headers: membership in it is joint case-insensitive membership in
both operands, so it is independent of the element order (and the
casing) of either side. -/
theorem C8_preflight_header_intersection (request_origin : Option String)
    (request_headers : Option HeaderSet) (request_method : Option String) (method : String)
    (response : Response) (allow_credentials : Bool) (allow_headers allow_methods : HeaderSet)
    (allow_origin : List OriginType) (expose_headers : HeaderSet) (max_age : Option Int)
    (send_origin_wildcard : Bool) (o : String) (rh : HeaderSet)
    (hvalid : ¬(hasWildcard allow_origin = true ∧ allow_credentials = true))
    (hfresh : response.quart_cors_applied = false)
    (horigin : get_origin_if_valid request_origin allow_origin send_origin_wildcard = some o)
    (hm : method = "OPTIONS")
    (hrm : pyTruthyStr request_method = true)
    (hallow : (allow_methods.containsTok (request_method.getD "")
      || allow_methods.containsTok "*") = true)
    (hnw : allow_headers.containsTok "*" = false)
    (hreq : request_headers = some rh) :
    ∃ r1, apply_cors request_origin request_headers request_method method response
      allow_credentials allow_headers allow_methods allow_origin expose_headers
      max_age send_origin_wildcard = .ok r1 ∧
      r1.access_control_allow_headers = some (headerSetIntersect allow_headers rh) ∧
      (∀ tok, (headerSetIntersect allow_headers rh).containsTok tok =
        (allow_headers.containsTok tok && rh.containsTok tok)) := by
  have hcond := wildcard_cred_cond hvalid
  have hq : (method == "OPTIONS" && pyTruthyStr request_method &&
      (allow_methods.containsTok (request_method.getD "")
        || allow_methods.containsTok "*")) = true := by
    subst hm
    simp [hrm, hallow]
  unfold apply_cors
  simp only [hcond, hfresh, horigin, Bool.false_eq_true, if_false, reduceIte]
  refine ⟨_, rfl, ?_, fun tok => containsTok_headerSetIntersect allow_headers rh tok⟩
  have hhdr := corsOriginBlock_preflight_intersect request_headers request_method method
    response allow_credentials allow_headers allow_methods expose_headers max_age o hq hnw
  rw [hreq] at hhdr ⊢
  obtain ⟨-, -, -, f4, -, -⟩ := corsVaryBlock_fields (some o)
    (corsOriginBlock (some rh) request_method method response allow_credentials
      allow_headers allow_methods expose_headers max_age o)
  rw [f4, hhdr]
  rfl

/-- Witness for C8: allow-headers `["X-Match","X-Other"]` against request
headers `X-Match, X-No-Match` yields exactly the (case-folded) token
`x-match`; allow-headers `["X-match"]` against the same request also
yields exactly that one token. -/
theorem C8_preflight_header_intersection_witness :
    (∃ r1, apply_cors (some "https://quart.com") (some ⟨["X-Match", "X-No-Match"]⟩)
      (some "GET") "OPTIONS" {} false ⟨["X-Match", "X-Other"]⟩ ⟨["GET"]⟩
      [.str "https://quart.com"] ⟨[""]⟩ none true = .ok r1 ∧
      r1.access_control_allow_headers = some ⟨["x-match"]⟩) ∧
    headerSetIntersect ⟨["X-match"]⟩ ⟨["X-Match", "X-No-Match"]⟩ = ⟨["x-match"]⟩ := by
  constructor
  · obtain ⟨r1, h1, h2, -⟩ := C8_preflight_header_intersection (some "https://quart.com")
      (some ⟨["X-Match", "X-No-Match"]⟩) (some "GET") "OPTIONS" {} false
      ⟨["X-Match", "X-Other"]⟩ ⟨["GET"]⟩ [.str "https://quart.com"] ⟨[""]⟩ none true
      "https://quart.com" ⟨["X-Match", "X-No-Match"]⟩
      (by decide) rfl rfl rfl rfl (by decide) (by decide) rfl
    refine ⟨r1, h1, ?_⟩
    rw [h2]
    rfl
  · rfl

/-- Unfolding of the wildcard test over a cons cell headed by an exact
string. -/
theorem hasWildcard_cons_str (s : String) (rest : List OriginType) :
    hasWildcard (.str s :: rest) = ((s == "*") || hasWildcard rest) := by
  simp [hasWildcard]

/-- Unfolding of the wildcard test over a cons cell headed by a regex. -/
theorem hasWildcard_cons_pattern (p : String → Bool) (rest : List OriginType) :
    hasWildcard (.pattern p :: rest) = hasWildcard rest := by
  simp [hasWildcard]

/-- If the allowed set contains the wildcard, the matching loop finds some
origin for every request origin. -/
theorem matchAllowed_isSome_of_wildcard (o : String) (sw : Bool) (pats : List OriginType)
    (hw : hasWildcard pats = true) : (matchAllowed o sw pats).isSome = true := by
  induction pats with
  | nil => simp [hasWildcard] at hw
  | cons a rest ih =>
    cases a with
    | str s =>
      by_cases hs : (s == "*") = true
      · cases sw <;> simp [matchAllowed, hs]
      · rw [hasWildcard_cons_str] at hw
        simp only [hs, Bool.false_or] at hw
        by_cases hos : (o == s) = true <;> simp [matchAllowed, hs, hos, ih hw]
    | pattern p =>
      rw [hasWildcard_cons_pattern] at hw
      by_cases hp : p o = true <;> simp [matchAllowed, hp, ih hw]

/-- Every successful match returns either the literal wildcard string or
the request origin itself. -/
theorem matchAllowed_some_cases (o r : String) (sw : Bool) (pats : List OriginType)
    (h : matchAllowed o sw pats = some r) : r = "*" ∨ r = o := by
  induction pats with
  | nil => simp [matchAllowed] at h
  | cons a rest ih =>
    cases a with
    | str s =>
      by_cases hs : (s == "*") = true
      · cases sw <;> simp_all [matchAllowed]
      · by_cases hos : (o == s) = true <;> simp_all [matchAllowed]
    | pattern p =>
      by_cases hp : p o = true <;> simp_all [matchAllowed]

/-- With send-wildcard off, every successful match echoes the request
origin. -/
theorem matchAllowed_send_off (o r : String) (pats : List OriginType)
    (h : matchAllowed o false pats = some r) : r = o := by
  induction pats with
  | nil => simp [matchAllowed] at h
  | cons a rest ih =>
    cases a with
    | str s =>
      by_cases hs : (s == "*") = true
      · simp_all [matchAllowed]
      · by_cases hos : (o == s) = true <;> simp_all [matchAllowed]
    | pattern p =>
      by_cases hp : p o = true <;> simp_all [matchAllowed]

/-- With no wildcard in the allowed set, every successful match (exact
string or regex) echoes the request origin, never `"*"`. -/
theorem matchAllowed_no_wildcard (o r : String) (sw : Bool) (pats : List OriginType)
    (hnw : hasWildcard pats = false) (h : matchAllowed o sw pats = some r) : r = o := by
  induction pats with
  | nil => simp [matchAllowed] at h
  | cons a rest ih =>
    cases a with
    | str s =>
      rw [hasWildcard_cons_str] at hnw
      by_cases hs : (s == "*") = true
      · simp [hs] at hnw
      · by_cases hos : (o == s) = true <;> simp_all [matchAllowed]
    | pattern p =>
      rw [hasWildcard_cons_pattern] at hnw
      by_cases hp : p o = true <;> simp_all [matchAllowed]

/-- C7 counterexample: with an allowed set containing both an exact
pattern and the wildcard, iteration can reach the exact pattern first,
so even with send-wildcard on the returned value is the literal origin,
not `"*"` — against the claim that the returned value is exactly `"*"`
whenever the set contains the wildcard and sendWildcard is true. -/
theorem C7_counterexample :
    get_origin_if_valid (some "https://a.com") [.str "https://a.com", .str "*"] true =
      some "https://a.com" ∧
    get_origin_if_valid (some "https://a.com") [.str "https://a.com", .str "*"] true ≠
      some "*" := by
  refine ⟨rfl, ?_⟩
  intro h
  exact absurd (Option.some.inj h) (by decide)

/-- C7 (amended): for a non-empty origin, (i) a wildcard-containing
allowed set always yields a match; (ii) with send-wildcard off the
returned value is exactly the input origin; (iii) every returned value
is `"*"` or the literal origin; (iv) if the set has no wildcard, any
match — exact or regex — returns the literal origin, never `"*"`;
(v) when the wildcard is the first pattern tried and send-wildcard is
on, the returned value is exactly `"*"`. -/
theorem C7_wildcard_match (o : String) (pats : List OriginType) (sw : Bool)
    (ho : ¬(o = "")) :
    (hasWildcard pats = true → (get_origin_if_valid (some o) pats sw).isSome = true) ∧
    (hasWildcard pats = true → sw = false → get_origin_if_valid (some o) pats sw = some o) ∧
    (∀ r, get_origin_if_valid (some o) pats sw = some r → r = "*" ∨ r = o) ∧
    (hasWildcard pats = false →
      ∀ r, get_origin_if_valid (some o) pats sw = some r → r = o) ∧
    (∀ rest, pats = .str "*" :: rest → sw = true →
      get_origin_if_valid (some o) pats sw = some "*") := by
  have hoe : (o == "") = false := by
    simpa using ho
  refine ⟨?_, ?_, ?_, ?_, ?_⟩
  · intro hw
    simpa [get_origin_if_valid, hoe] using matchAllowed_isSome_of_wildcard o sw pats hw
  · intro hw hsw
    subst hsw
    have h1 := matchAllowed_isSome_of_wildcard o false pats hw
    obtain ⟨r, hr⟩ := Option.isSome_iff_exists.mp h1
    have := matchAllowed_send_off o r pats hr
    subst this
    simpa [get_origin_if_valid, hoe] using hr
  · intro r hr
    rw [get_origin_if_valid] at hr
    simp only [hoe, Bool.false_eq_true, if_false, reduceIte] at hr
    exact matchAllowed_some_cases o r sw pats hr
  · intro hnw r hr
    rw [get_origin_if_valid] at hr
    simp only [hoe, Bool.false_eq_true, if_false, reduceIte] at hr
    exact matchAllowed_no_wildcard o r sw pats hnw hr
  · intro rest hrest hsw
    subst hrest
    subst hsw
    simp [get_origin_if_valid, hoe, matchAllowed]

/-- Witness for C7's amended theorem at a singleton wildcard set: with
send-wildcard on the result is `"*"`, with it off the result echoes the
origin. -/
theorem C7_wildcard_match_witness :
    get_origin_if_valid (some "https://a.com") [.str "*"] true = some "*" ∧
    get_origin_if_valid (some "https://a.com") [.str "*"] false = some "https://a.com" :=
  ⟨(C7_wildcard_match "https://a.com" [.str "*"] true (by decide)).2.2.2.2 [] rfl rfl,
   (C7_wildcard_match "https://a.com" [.str "*"] false (by decide)).2.1 (by decide) rfl⟩

/-- C9: the application-wide websocket guard rejects the handshake with
status 400 exactly when the handler is not exempt and the origin
matcher, over the resolved allowed-origin set, returns no origin
(including a missing `Origin` header); an exempt handler always
proceeds regardless of origin. -/
theorem C9_websocket_guard (exempt : Bool) (ws_origin : Option String)
    (allow_origin : Option (List OriginType)) (send_origin_wildcard : Option Bool)
    (c : Config) :
    (before_websocket exempt ws_origin allow_origin send_origin_wildcard c = .error 400 ↔
      (exempt = false ∧
        get_origin_if_valid ws_origin (sanitise_origin_set allow_origin (cfgAllowOrigin c))
          (pyOrBool send_origin_wildcard (cfgSendOriginWildcard c)) = none)) ∧
    (exempt = true →
      before_websocket exempt ws_origin allow_origin send_origin_wildcard c = .ok ()) := by
  unfold before_websocket apply_websocket_cors
  cases exempt with
  | true => simp
  | false =>
    simp only [Bool.not_false, if_true, reduceIte]
    cases hm : get_origin_if_valid ws_origin
      (sanitise_origin_set allow_origin (cfgAllowOrigin c))
      (pyOrBool send_origin_wildcard (cfgSendOriginWildcard c)) <;> simp [hm]

/-- Witness for C9: a handshake with no `Origin` header is rejected with
400, an exempt handler proceeds, and a handshake whose origin matches
the configured exact origin is not rejected. -/
theorem C9_websocket_guard_witness :
    before_websocket false none none none {} = .error 400 ∧
    before_websocket true none none none {} = .ok () ∧
    before_websocket false (some "https://quart.example")
      (some [.str "https://quart.example"]) none {} ≠ .error 400 :=
  ⟨(C9_websocket_guard false none none none {}).1.mpr ⟨rfl, rfl⟩,
   (C9_websocket_guard true none none none {}).2 rfl,
   fun h => absurd ((C9_websocket_guard false (some "https://quart.example")
     (some [.str "https://quart.example"]) none {}).1.mp h).2 (by decide)⟩

/-- Python's `or` on a resolved optional boolean that is not a supplied
`True` always falls through to the configured value. -/
theorem pyOrBool_not_true (v : Option Bool) (cfg : Bool) (h : v ≠ some true) :
    pyOrBool v cfg = cfg := by
  cases v with
  | none => rfl
  | some b =>
    cases b with
    | false => rfl
    | true => exact absurd rfl h

/-- C2 counterexample: an explicitly supplied `allow_credentials=False`
does NOT win over a `True` instance-configuration value — the code
resolves booleans with Python's `or`, so the explicit `False` falls
through to the configured `True`, against the claim. -/
theorem C2_counterexample :
    (resolvePolicy { allow_credentials := some false }
      { quart_cors_allow_credentials := some true }).allow_credentials ≠ false := by
  decide

/-- C2 (amended): for allowHeaders, allowMethods, allowOrigin,
exposeHeaders and maxAge the explicit per-call value wins when
supplied, otherwise the instance configuration value, otherwise the
hardcoded default; for the booleans allowCredentials and
sendOriginWildcard only an explicit `true` wins — an explicit `false`
(like an absent value) falls back to the configuration value or
default (`false` resp. `true`), because resolution uses Python's
`or`. -/
theorem C2_resolution (e : ExplicitPolicy) (c : Config) :
    (∀ v, e.allow_headers = some v → (resolvePolicy e c).allow_headers = ⟨v⟩) ∧
    (∀ v, e.allow_headers = none → c.quart_cors_allow_headers = some v →
      (resolvePolicy e c).allow_headers = ⟨v⟩) ∧
    (e.allow_headers = none → c.quart_cors_allow_headers = none →
      (resolvePolicy e c).allow_headers = ⟨["*"]⟩) ∧
    (∀ v, e.allow_methods = some v → (resolvePolicy e c).allow_methods = ⟨v⟩) ∧
    (∀ v, e.allow_methods = none → c.quart_cors_allow_methods = some v →
      (resolvePolicy e c).allow_methods = ⟨v⟩) ∧
    (e.allow_methods = none → c.quart_cors_allow_methods = none →
      (resolvePolicy e c).allow_methods =
        ⟨["GET", "HEAD", "POST", "OPTIONS", "PUT", "PATCH", "DELETE"]⟩) ∧
    (∀ v, e.allow_origin = some v → (resolvePolicy e c).allow_origin = v) ∧
    (∀ v, e.allow_origin = none → c.quart_cors_allow_origin = some v →
      (resolvePolicy e c).allow_origin = v) ∧
    (e.allow_origin = none → c.quart_cors_allow_origin = none →
      (resolvePolicy e c).allow_origin = [.str "*"]) ∧
    (∀ v, e.expose_headers = some v → (resolvePolicy e c).expose_headers = ⟨v⟩) ∧
    (∀ v, e.expose_headers = none → c.quart_cors_expose_headers = some v →
      (resolvePolicy e c).expose_headers = ⟨v⟩) ∧
    (e.expose_headers = none → c.quart_cors_expose_headers = none →
      (resolvePolicy e c).expose_headers = ⟨[""]⟩) ∧
    (∀ v, e.max_age = some v → (resolvePolicy e c).max_age = some v) ∧
    (∀ v, e.max_age = none → c.quart_cors_max_age = some v →
      (resolvePolicy e c).max_age = v) ∧
    (e.max_age = none → c.quart_cors_max_age = none → (resolvePolicy e c).max_age = none) ∧
    (e.allow_credentials = some true → (resolvePolicy e c).allow_credentials = true) ∧
    (∀ b, e.allow_credentials ≠ some true → c.quart_cors_allow_credentials = some b →
      (resolvePolicy e c).allow_credentials = b) ∧
    (e.allow_credentials ≠ some true → c.quart_cors_allow_credentials = none →
      (resolvePolicy e c).allow_credentials = false) ∧
    (e.send_origin_wildcard = some true → (resolvePolicy e c).send_origin_wildcard = true) ∧
    (∀ b, e.send_origin_wildcard ≠ some true → c.quart_cors_send_origin_wildcard = some b →
      (resolvePolicy e c).send_origin_wildcard = b) ∧
    (e.send_origin_wildcard ≠ some true → c.quart_cors_send_origin_wildcard = none →
      (resolvePolicy e c).send_origin_wildcard = true) := by
  refine ⟨?_, ?_, ?_, ?_, ?_, ?_, ?_, ?_, ?_, ?_, ?_, ?_, ?_, ?_, ?_, ?_, ?_, ?_, ?_, ?_, ?_⟩
  · intro v hv
    simp [resolvePolicy, sanitise_header_set, hv]
  · intro v hv hc
    simp [resolvePolicy, sanitise_header_set, cfgAllowHeaders, hv, hc]
  · intro hv hc
    simp [resolvePolicy, sanitise_header_set, cfgAllowHeaders, hv, hc]
  · intro v hv
    simp [resolvePolicy, sanitise_header_set, hv]
  · intro v hv hc
    simp [resolvePolicy, sanitise_header_set, cfgAllowMethods, hv, hc]
  · intro hv hc
    simp [resolvePolicy, sanitise_header_set, cfgAllowMethods, hv, hc]
  · intro v hv
    simp [resolvePolicy, sanitise_origin_set, hv]
  · intro v hv hc
    simp [resolvePolicy, sanitise_origin_set, cfgAllowOrigin, hv, hc]
  · intro hv hc
    simp [resolvePolicy, sanitise_origin_set, cfgAllowOrigin, hv, hc]
  · intro v hv
    simp [resolvePolicy, sanitise_header_set, hv]
  · intro v hv hc
    simp [resolvePolicy, sanitise_header_set, cfgExposeHeaders, hv, hc]
  · intro hv hc
    simp [resolvePolicy, sanitise_header_set, cfgExposeHeaders, hv, hc]
  · intro v hv
    simp [resolvePolicy, sanitise_max_age, hv]
  · intro v hv hc
    simp [resolvePolicy, sanitise_max_age, cfgMaxAge, hv, hc]
  · intro hv hc
    simp [resolvePolicy, sanitise_max_age, cfgMaxAge, hv, hc]
  · intro hv
    simp [resolvePolicy, pyOrBool, hv]
  · intro b hv hc
    simp [resolvePolicy, pyOrBool_not_true _ _ hv, cfgAllowCredentials, hc]
  · intro hv hc
    simp [resolvePolicy, pyOrBool_not_true _ _ hv, cfgAllowCredentials, hc]
  · intro hv
    simp [resolvePolicy, pyOrBool, hv]
  · intro b hv hc
    simp [resolvePolicy, pyOrBool_not_true _ _ hv, cfgSendOriginWildcard, hc]
  · intro hv hc
    simp [resolvePolicy, pyOrBool_not_true _ _ hv, cfgSendOriginWildcard, hc]

/-- Witness for C2's amended theorem: an explicit headers list wins, an
explicit `true` for credentials wins over a configured `false`, and
with nothing supplied the seven default methods apply. -/
theorem C2_resolution_witness :
    (resolvePolicy { allow_headers := some ["X-1"], allow_credentials := some true }
      { quart_cors_allow_credentials := some false }).allow_headers = ⟨["X-1"]⟩ ∧
    (resolvePolicy { allow_headers := some ["X-1"], allow_credentials := some true }
      { quart_cors_allow_credentials := some false }).allow_credentials = true ∧
    (resolvePolicy {} {}).allow_methods =
      ⟨["GET", "HEAD", "POST", "OPTIONS", "PUT", "PATCH", "DELETE"]⟩ := by
  obtain ⟨h1, _, _, _, _, _, _, _, _, _, _, _, _, _, _, h16, _, _, _, _, _⟩ :=
    C2_resolution { allow_headers := some ["X-1"], allow_credentials := some true }
      { quart_cors_allow_credentials := some false }
  obtain ⟨_, _, _, _, _, g6, _, _, _, _, _, _, _, _, _, _, _, _, _, _, _⟩ :=
    C2_resolution {} {}
  exact ⟨h1 ["X-1"] rfl, h16 rfl, g6 rfl rfl⟩

/-- C10 counterexample: the `route_cors` wrapper's `nonlocal` write-back
caches the first call's resolved values.  A first request under a
configuration allowing `https://a.com`, then a second request under a
changed configuration allowing `https://b.com`, yields a second
response WITHOUT the allow-origin header — while a freshly decorated
handler under the second configuration sets it.  The two responses
differ, against the claim that they are identical. -/
theorem C10_counterexample :
    (route_cors_call
      (route_cors_call {} { quart_cors_allow_origin := some [.str "https://a.com"] }
        {} {}).1
      { quart_cors_allow_origin := some [.str "https://b.com"] }
      { origin := some "https://b.com" } {}).2 =
      .ok { vary := ⟨["Origin"]⟩, quart_cors_applied := true } ∧
    (route_cors_call {} { quart_cors_allow_origin := some [.str "https://b.com"] }
      { origin := some "https://b.com" } {}).2 =
      .ok { access_control_allow_origin := some "https://b.com",
            access_control_allow_credentials := some false,
            access_control_expose_headers := some ⟨[""]⟩,
            vary := ⟨["Origin"]⟩, quart_cors_applied := true } ∧
    ({ vary := ⟨["Origin"]⟩, quart_cors_applied := true } : Response) ≠
      { access_control_allow_origin := some "https://b.com",
        access_control_allow_credentials := some false,
        access_control_expose_headers := some ⟨[""]⟩,
        vary := ⟨["Origin"]⟩, quart_cors_applied := true } :=
  ⟨rfl, rfl, by decide⟩

/-- C10 (amended): configuration is read on the first call only — the
wrapper's `nonlocal` statements store the resolved values back into the
decorator's closure, so a second call resolves the header/method/origin
policy fields to the FIRST call's resolved values regardless of the
configuration current at the second call; configuration changes after
the first request therefore do not take effect for those fields. -/
theorem C10_first_call_resolution_cached (st : ExplicitPolicy) (c1 c2 : Config)
    (rd1 : RequestData) (resp1 : Response) :
    (resolvePolicy (route_cors_call st c1 rd1 resp1).1 c2).allow_origin =
      (resolvePolicy st c1).allow_origin ∧
    (resolvePolicy (route_cors_call st c1 rd1 resp1).1 c2).allow_headers =
      (resolvePolicy st c1).allow_headers ∧
    (resolvePolicy (route_cors_call st c1 rd1 resp1).1 c2).allow_methods =
      (resolvePolicy st c1).allow_methods ∧
    (resolvePolicy (route_cors_call st c1 rd1 resp1).1 c2).expose_headers =
      (resolvePolicy st c1).expose_headers :=
  ⟨rfl, rfl, rfl, rfl⟩
